import Mathlib

/-!
Shallow embedding of the checkout-to-order reconciliation workflow of the
SIMPLE-ECOMMERCE storefront:

* `checkoutPOST` embeds `src/app/api/stripe/checkout/route.ts` (POST): it
  validates the authenticated user, parses the shipping address, rejects an
  empty cart, batch-selects the referenced products, builds the payment line
  items (throwing on an unknown product), computes the total, inserts the
  order row and its order-item rows, creates the external payment session and
  stores its id on the order.  External failures (database errors, payment
  session failure) are modelled by boolean flags, and the persisted rows are
  returned explicitly so that partial-write behaviour is observable.

* `webhookPOST` embeds `src/app/api/stripe/webhook/route.ts` (POST): it
  checks the signature header, verifies/parses the event through an abstract
  `constructEvent` function (the external signed-event parser), and dispatches
  on the event type, updating the order store and cart store.  Every store
  read and write performed is recorded in an operation trace.

Machine numbers (prices in integer minor currency units, quantities) are
modelled as `Int`; identifiers, statuses and event types are the literal
strings the code uses.
-/

/-- Catalog product row (`products` table / `Product` in `src/types/index.ts`).
Only the fields the checkout route reads are carried. -/
structure Product where
  id : String
  name : String
  description : String
  image_url : String
  price : Int
  deriving Repr, DecidableEq

/-- One element of the client-supplied `cart_items` array in the checkout
request body.  The route only ever reads `product_id` and `quantity`;
`client_price` stands for any price field a client might also send, which the
code never reads. -/
structure CartItemInput where
  product_id : String
  quantity : Int
  client_price : Int
  deriving Repr, DecidableEq

/-- Raw shipping address from the request body, shaped like
`shippingAddressSchema` in `src/types/index.ts`. -/
structure ShippingAddress where
  full_name : String
  address_line1 : String
  address_line2 : Option String
  city : String
  state : String
  postal_code : String
  country : String
  phone : Option String
  deriving Repr, DecidableEq

/-- `shippingAddressSchema.parse`: every required field must be a non-empty
string; on failure the schema throws (modelled as `Except.error`). -/
def shippingAddressSchemaParse (a : ShippingAddress) :
    Except String ShippingAddress :=
  if 1 ≤ a.full_name.length ∧ 1 ≤ a.address_line1.length ∧
      1 ≤ a.city.length ∧ 1 ≤ a.state.length ∧
      1 ≤ a.postal_code.length ∧ 1 ≤ a.country.length then
    Except.ok a
  else
    Except.error "Invalid shipping address"

/-- Authenticated user as returned by `supabase.auth.getUser()`. -/
structure AuthUser where
  id : String
  email : String
  deriving Repr, DecidableEq

/-- Parsed checkout request body. -/
structure CheckoutBody where
  shipping_address : ShippingAddress
  cart_items : List CartItemInput
  deriving Repr, DecidableEq

/-- Persisted `orders` row (the columns this workflow touches). -/
structure OrderRow where
  id : String
  user_id : String
  email : String
  total_amount : Int
  status : String
  shipping_address : ShippingAddress
  stripe_session_id : Option String
  stripe_payment_intent : Option String
  deriving Repr, DecidableEq

/-- Persisted `order_items` row. -/
structure OrderItemRow where
  order_id : String
  product_id : String
  product_name : String
  product_price : Int
  quantity : Int
  deriving Repr, DecidableEq

/-- HTTP response of the checkout route: `ok` is the 200 success payload with
the session id and redirect url, `err` a JSON error with its HTTP status. -/
inductive CheckoutResponse where
  | ok (session_id : String) (url : String)
  | err (status : Nat) (msg : String)
  deriving Repr, DecidableEq

/-- Outcome of one checkout request: the response together with the order and
order-item rows left persisted by the request. -/
structure CheckoutResult where
  response : CheckoutResponse
  orders : List OrderRow
  order_items : List OrderItemRow
  deriving Repr, DecidableEq

/-- External-dependency failure switches for one checkout request: whether the
products batch select, the order insert, the order-items insert or the payment
session creation errors. -/
structure DbFlags where
  productsSelectFails : Bool
  orderInsertFails : Bool
  orderItemsInsertFails : Bool
  stripeSessionFails : Bool
  deriving Repr, DecidableEq

/-- `supabase.from('products').select('*').in('id', productIds)`: the catalog
rows whose id occurs in the requested id list. -/
def batchSelectProducts (catalog : List Product) (ids : List String) :
    List Product :=
  catalog.filter (fun p => ids.contains p.id)

/-- `products?.find(p => p.id === item.product_id)`. -/
def findProduct (products : List Product) (pid : String) : Option Product :=
  products.find? (fun p => p.id == pid)

/-- One Stripe line item built from a resolved product and a cart quantity. -/
structure LineItem where
  name : String
  description : String
  image_url : String
  unit_amount : Int
  quantity : Int
  deriving Repr, DecidableEq

/-- The `cart_items.map(...)` building Stripe line items: throws
`Product <id> not found` at the first cart item whose product id does not
resolve among the batch-selected products. -/
def lineItemsOf (products : List Product) :
    List CartItemInput → Except String (List LineItem)
  | [] => Except.ok []
  | item :: rest =>
    match findProduct products item.product_id with
    | none => Except.error ("Product " ++ item.product_id ++ " not found")
    | some p =>
      match lineItemsOf products rest with
      | Except.error e => Except.error e
      | Except.ok ls =>
        Except.ok ({ name := p.name, description := p.description,
                     image_url := p.image_url, unit_amount := p.price,
                     quantity := item.quantity } :: ls)

/-- The `cart_items.reduce(...)` total: a left fold of
`sum + product!.price * item.quantity`; the non-null assertion `product!` on a
missing product is a runtime type error, modelled as `Except.error ()`. -/
def totalAmountFrom (products : List Product) (sum : Int) :
    List CartItemInput → Except Unit Int
  | [] => Except.ok sum
  | item :: rest =>
    match findProduct products item.product_id with
    | none => Except.error ()
    | some p => totalAmountFrom products (sum + p.price * item.quantity) rest

/-- The order total as the route computes it (reduce with initial value 0). -/
def totalAmountOf (products : List Product) (cart : List CartItemInput) :
    Except Unit Int :=
  totalAmountFrom products 0 cart

/-- The `cart_items.map(...)` building the `order_items` rows; as in the
total, `product!` on a missing product is modelled as `Except.error ()`. -/
def orderItemsOf (products : List Product) (oid : String) :
    List CartItemInput → Except Unit (List OrderItemRow)
  | [] => Except.ok []
  | item :: rest =>
    match findProduct products item.product_id with
    | none => Except.error ()
    | some p =>
      match orderItemsOf products oid rest with
      | Except.error e => Except.error e
      | Except.ok rs =>
        Except.ok ({ order_id := oid, product_id := item.product_id,
                     product_name := p.name, product_price := p.price,
                     quantity := item.quantity } :: rs)

/-- POST `/api/stripe/checkout` (`src/app/api/stripe/checkout/route.ts`).
Besides the request (`user?`, `body`) it takes the catalog contents, the
failure switches, the database-generated order id and the payment session id
and url the external processor would return.  The TypeScript `try`/`catch`
turning a thrown error into a 500 response is inlined at each throw site. -/
def checkoutPOST (user? : Option AuthUser) (body : CheckoutBody)
    (catalog : List Product) (flags : DbFlags)
    (newOrderId session_id url : String) : CheckoutResult :=
  match user? with
  | none => ⟨CheckoutResponse.err 401 "Unauthorized", [], []⟩
  | some user =>
    match shippingAddressSchemaParse body.shipping_address with
    | Except.error e => ⟨CheckoutResponse.err 500 e, [], []⟩
    | Except.ok validatedAddress =>
      if body.cart_items.isEmpty then
        ⟨CheckoutResponse.err 400 "Cart is empty", [], []⟩
      else if flags.productsSelectFails then
        ⟨CheckoutResponse.err 500 "products select failed", [], []⟩
      else
        let productIds := body.cart_items.map (fun item => item.product_id)
        let products := batchSelectProducts catalog productIds
        match lineItemsOf products body.cart_items with
        | Except.error e => ⟨CheckoutResponse.err 500 e, [], []⟩
        | Except.ok _lineItems =>
          match totalAmountOf products body.cart_items with
          | Except.error _ => ⟨CheckoutResponse.err 500 "TypeError", [], []⟩
          | Except.ok totalAmount =>
            if flags.orderInsertFails then
              ⟨CheckoutResponse.err 500 "order insert failed", [], []⟩
            else
              let order : OrderRow :=
                { id := newOrderId, user_id := user.id, email := user.email,
                  total_amount := totalAmount, status := "pending",
                  shipping_address := validatedAddress,
                  stripe_session_id := none, stripe_payment_intent := none }
              match orderItemsOf products order.id body.cart_items with
              | Except.error _ =>
                ⟨CheckoutResponse.err 500 "TypeError", [order], []⟩
              | Except.ok orderItems =>
                if flags.orderItemsInsertFails then
                  ⟨CheckoutResponse.err 500 "order items insert failed",
                    [order], []⟩
                else if flags.stripeSessionFails then
                  ⟨CheckoutResponse.err 500 "stripe session failed",
                    [order], orderItems⟩
                else
                  ⟨CheckoutResponse.ok session_id url,
                    [{ order with stripe_session_id := some session_id }],
                    orderItems⟩

/-! ## Webhook handler embedding -/

/-- Persisted `cart_items` row (the columns the webhook touches). -/
structure CartRow where
  user_id : String
  product_id : String
  quantity : Int
  deriving Repr, DecidableEq

/-- The mutable store the webhook acts on: order rows and cart rows. -/
structure StoreState where
  orders : List OrderRow
  cart_items : List CartRow
  deriving Repr, DecidableEq

/-- The `event.data.object` fields the webhook reads: the session metadata
(`order_id`, `user_id`), the session's `payment_intent`, and the object's own
`id` (read on payment-failure events). -/
structure EventObject where
  metadata_order_id : Option String
  metadata_user_id : Option String
  payment_intent : String
  id : String
  deriving Repr, DecidableEq

/-- A verified-and-parsed processor event. -/
structure StripeEvent where
  type : String
  object : EventObject
  deriving Repr, DecidableEq

/-- One store access performed by the webhook handler (reads included). -/
inductive StoreOp where
  | updateOrderCompleted (order_id : String) (payment_intent : String)
  | deleteCartItems (user_id : String)
  | selectOrdersByPaymentIntent (payment_intent : String)
  | updateOrderCancelled (order_id : String)
  deriving Repr, DecidableEq

/-- Webhook HTTP response: the `received: true` acknowledgment or a JSON
error with its HTTP status. -/
inductive WebhookResponse where
  | received
  | err (status : Nat) (msg : String)
  deriving Repr, DecidableEq

/-- Outcome of one webhook delivery: response, resulting store and the trace
of store operations performed. -/
structure WebhookResult where
  response : WebhookResponse
  store : StoreState
  ops : List StoreOp
  deriving Repr, DecidableEq

/-- `update({status:'completed', stripe_payment_intent}).eq('id', orderId)`. -/
def markOrderCompleted (orders : List OrderRow) (oid pi : String) :
    List OrderRow :=
  orders.map (fun o =>
    if o.id == oid then
      { o with status := "completed", stripe_payment_intent := some pi }
    else o)

/-- `update({status:'cancelled'}).eq('id', oid)`. -/
def markOrderCancelled (orders : List OrderRow) (oid : String) :
    List OrderRow :=
  orders.map (fun o =>
    if o.id == oid then { o with status := "cancelled" } else o)

/-- `from('cart_items').delete().eq('user_id', userId)`. -/
def deleteCartOf (cart : List CartRow) (uid : String) : List CartRow :=
  cart.filter (fun c => c.user_id != uid)

/-- `from('orders').select('id').eq('stripe_payment_intent', id)`. -/
def selectByPaymentIntent (orders : List OrderRow) (pi : String) :
    List OrderRow :=
  orders.filter (fun o => o.stripe_payment_intent == some pi)

/-- POST `/api/stripe/webhook` (`src/app/api/stripe/webhook/route.ts`).
`constructEvent` is the external `stripe.webhooks.constructEvent`: given the
raw body, the signature header value and the shared secret it either returns
the verified event or throws (`Except.error`). -/
def webhookPOST (constructEvent : String → String → String → Except String StripeEvent)
    (webhookSecret : String) (body : String) (signature : Option String)
    (store : StoreState) : WebhookResult :=
  match signature with
  | none => ⟨WebhookResponse.err 400 "No signature", store, []⟩
  | some sig =>
    match constructEvent body sig webhookSecret with
    | Except.error msg =>
      ⟨WebhookResponse.err 400 ("Webhook Error: " ++ msg), store, []⟩
    | Except.ok event =>
      if event.type == "checkout.session.completed" then
        match event.object.metadata_order_id with
        | none => ⟨WebhookResponse.received, store, []⟩
        | some orderId =>
          let orders1 :=
            markOrderCompleted store.orders orderId event.object.payment_intent
          match event.object.metadata_user_id with
          | none =>
            ⟨WebhookResponse.received, { store with orders := orders1 },
              [StoreOp.updateOrderCompleted orderId event.object.payment_intent]⟩
          | some userId =>
            ⟨WebhookResponse.received,
              { orders := orders1,
                cart_items := deleteCartOf store.cart_items userId },
              [StoreOp.updateOrderCompleted orderId event.object.payment_intent,
               StoreOp.deleteCartItems userId]⟩
      else if event.type == "payment_intent.payment_failed" then
        match selectByPaymentIntent store.orders event.object.id with
        | [] =>
          ⟨WebhookResponse.received, store,
            [StoreOp.selectOrdersByPaymentIntent event.object.id]⟩
        | o :: _ =>
          ⟨WebhookResponse.received,
            { store with orders := markOrderCancelled store.orders o.id },
            [StoreOp.selectOrdersByPaymentIntent event.object.id,
             StoreOp.updateOrderCancelled o.id]⟩
      else
        ⟨WebhookResponse.received, store, []⟩

/-! ## Derived definitions and concrete fixtures -/

/-- Replace the client-supplied price field of every cart item (the fields the
route actually reads are untouched). -/
def setClientPrice (f : CartItemInput → Int) (cart : List CartItemInput) :
    List CartItemInput :=
  cart.map (fun i => { i with client_price := f i })

/-- Sum of `product_price × quantity` over a list of order-item rows. -/
def orderItemsTotal (items : List OrderItemRow) : Int :=
  (items.map (fun it => it.product_price * it.quantity)).sum

/-- A shipping address that passes the schema. -/
def sampleAddress : ShippingAddress :=
  ⟨"Jane Doe", "1 Main St", none, "Springfield", "IL", "62704", "US", none⟩

/-- A sample authenticated user. -/
def sampleUser : AuthUser := ⟨"u1", "jane@example.com"⟩

/-- Sample catalog products. -/
def sampleProduct : Product :=
  ⟨"p1", "Rose Perfume", "A floral scent", "rose.jpg", 1000⟩

def sampleProduct2 : Product :=
  ⟨"p2", "Oud Cologne", "A woody scent", "oud.jpg", 2500⟩

/-- All external dependencies succeed. -/
def flagsOkAll : DbFlags := ⟨false, false, false, false⟩

/-- A `checkout.session.completed` event correlated to order `o1`, user `u1`,
payment intent `pi1`. -/
def sampleCompletedEvent : StripeEvent :=
  ⟨"checkout.session.completed", ⟨some "o1", some "u1", "pi1", "pi1"⟩⟩

/-- An event parser that accepts and returns `sampleCompletedEvent`. -/
def sampleConstructEvent : String → String → String → Except String StripeEvent :=
  fun _ _ _ => Except.ok sampleCompletedEvent

/-- A store whose only order `o1` is already in terminal `completed` status
with its payment intent recorded, and whose cart is already empty: the state
after a first delivery of `sampleCompletedEvent`. -/
def sampleStoreCompleted : StoreState :=
  ⟨[⟨"o1", "u1", "jane@example.com", 4500, "completed", sampleAddress,
      some "cs1", some "pi1"⟩], []⟩

/-- A `checkout.session.completed` event carrying an order id but no user id. -/
def sampleEventNoUser : StripeEvent :=
  ⟨"checkout.session.completed", ⟨some "o1", none, "pi9", "pi9"⟩⟩

/-- An event parser that accepts and returns `sampleEventNoUser`. -/
def sampleConstructEventNoUser : String → String → String → Except String StripeEvent :=
  fun _ _ _ => Except.ok sampleEventNoUser

/-- A store whose only order `o1` is in terminal `cancelled` status. -/
def sampleStoreCancelled : StoreState :=
  ⟨[⟨"o1", "u1", "jane@example.com", 4500, "cancelled", sampleAddress,
      some "cs1", none⟩], []⟩

/-! ## Helper lemmas -/

/-- Mapping an idempotent function twice is the same as mapping it once. -/
theorem map_self_idem {α : Type} (f : α → α) (hf : ∀ a, f (f a) = f a) :
    ∀ l : List α, (l.map f).map f = l.map f := by
  intro l
  induction l with
  | nil => rfl
  | cons a t ih => simp only [List.map_cons, ih, hf]

/-- Filtering twice by the same predicate is the same as filtering once. -/
theorem filter_self_idem {α : Type} (p : α → Bool) :
    ∀ l : List α, (l.filter p).filter p = l.filter p := by
  intro l
  induction l with
  | nil => rfl
  | cons a t ih =>
    by_cases h : p a = true
    · simp only [List.filter_cons, h, if_true, ih]
    · simp only [List.filter_cons, h, if_false, ih]
      simp [h, ih]

/-- Re-applying the unconditional completed-status update changes nothing. -/
theorem markOrderCompleted_idem (l : List OrderRow) (oid pi : String) :
    markOrderCompleted (markOrderCompleted l oid pi) oid pi
      = markOrderCompleted l oid pi := by
  refine map_self_idem _ (fun o => ?_) l
  by_cases h : (o.id == oid) = true
  · simp [h]
  · simp [h]

/-- Re-applying the cart delete for the same user changes nothing. -/
theorem deleteCartOf_idem (l : List CartRow) (uid : String) :
    deleteCartOf (deleteCartOf l uid) uid = deleteCartOf l uid :=
  filter_self_idem _ l

/-! ## C1: redelivery of a completed-session event -/

/-- C1 (counterexample): the claim says that for an order already in
`completed` status a second delivery of its `checkout.session.completed` event
short-circuits, performing no second terminal-state write and no second cart
clear.  On the concrete already-completed store `sampleStoreCompleted` the
handler nevertheless issues both the order update and the cart delete: its
operation trace is not empty. -/
theorem C1_counterexample :
    (webhookPOST sampleConstructEvent "whsec" "rawbody" (some "sig")
        sampleStoreCompleted).ops
      = [StoreOp.updateOrderCompleted "o1" "pi1", StoreOp.deleteCartItems "u1"] := by
  rfl

/-- C1 (amended): the handler performs no status check and does not
short-circuit — it re-issues the unconditional order update and the cart
delete — but the second delivery of the same verified
`checkout.session.completed` event returns the success acknowledgment and
leaves the store in exactly the state the first delivery produced. -/
theorem C1_second_delivery_state_idempotent
    (ce : String → String → String → Except String StripeEvent)
    (secret body sig : String) (st : StoreState) (ev : StripeEvent)
    (hok : ce body sig secret = Except.ok ev)
    (htype : ev.type = "checkout.session.completed") :
    (webhookPOST ce secret body (some sig)
        (webhookPOST ce secret body (some sig) st).store).store
      = (webhookPOST ce secret body (some sig) st).store
    ∧ (webhookPOST ce secret body (some sig)
        (webhookPOST ce secret body (some sig) st).store).response
      = WebhookResponse.received := by
  cases hoid : ev.object.metadata_order_id with
  | none => simp [webhookPOST, hok, htype, hoid]
  | some oid =>
    cases huid : ev.object.metadata_user_id with
    | none =>
      simp [webhookPOST, hok, htype, hoid, huid, markOrderCompleted_idem]
    | some uid =>
      simp [webhookPOST, hok, htype, hoid, huid, markOrderCompleted_idem,
        deleteCartOf_idem]

/-- C1 (witness): the amended theorem applied to the concrete second delivery
of `sampleCompletedEvent` against the already-completed store. -/
theorem C1_second_delivery_state_idempotent_witness :
    (sampleConstructEvent "rawbody" "sig" "whsec"
        = Except.ok sampleCompletedEvent)
    ∧ (sampleCompletedEvent.type = "checkout.session.completed")
    ∧ ((webhookPOST sampleConstructEvent "whsec" "rawbody" (some "sig")
          (webhookPOST sampleConstructEvent "whsec" "rawbody" (some "sig")
            sampleStoreCompleted).store).store
        = (webhookPOST sampleConstructEvent "whsec" "rawbody" (some "sig")
            sampleStoreCompleted).store
      ∧ (webhookPOST sampleConstructEvent "whsec" "rawbody" (some "sig")
          (webhookPOST sampleConstructEvent "whsec" "rawbody" (some "sig")
            sampleStoreCompleted).store).response
        = WebhookResponse.received) :=
  ⟨rfl, rfl,
    C1_second_delivery_state_idempotent sampleConstructEvent "whsec" "rawbody"
      "sig" sampleStoreCompleted sampleCompletedEvent rfl rfl⟩

/-! ## C2: terminal statuses are not protected -/

/-- C2 (code bug evaluation): an order already in terminal `cancelled` status
receives a validly signed `checkout.session.completed` event carrying its
order id; the handler unconditionally overwrites its status with `completed`,
contradicting the monotonic-transition invariant. -/
theorem C2_terminal_state_overwritten :
    ((webhookPOST sampleConstructEventNoUser "whsec" "rawbody" (some "sig")
        sampleStoreCancelled).store.orders.map (fun o => o.status))
      = ["completed"] := by
  rfl

/-! ## C3: order insert is not atomic with the order-items insert -/

/-- C3 (code bug evaluation): with every step succeeding except the
order-items insert, the checkout returns the 500 failure response yet leaves
the parent order row persisted in `pending` status with zero order-item rows —
the partial write the claim rules out. -/
theorem C3_partial_order_persisted :
    checkoutPOST (some sampleUser) ⟨sampleAddress, [⟨"p1", 2, 0⟩]⟩
        [sampleProduct] ⟨false, false, true, false⟩ "o1" "cs1" "http://pay"
      = ⟨CheckoutResponse.err 500 "order items insert failed",
          [⟨"o1", "u1", "jane@example.com", 2000, "pending", sampleAddress,
            none, none⟩], []⟩ := by
  rfl

/-! ## C4: unknown product aborts the checkout -/

/-- When some cart item's product id does not resolve, the line-item mapping
throws the unknown-product error (for the first such id). -/
theorem lineItemsOf_error_of_unresolved (products : List Product) :
    ∀ cart : List CartItemInput,
      (∃ item ∈ cart, findProduct products item.product_id = none) →
      ∃ pid, findProduct products pid = none ∧
        lineItemsOf products cart
          = Except.error ("Product " ++ pid ++ " not found") := by
  intro cart
  induction cart with
  | nil => intro h; simp at h
  | cons item rest ih =>
    intro h
    cases hf : findProduct products item.product_id with
    | none => exact ⟨item.product_id, hf, by simp [lineItemsOf, hf]⟩
    | some p =>
      have h' : ∃ it ∈ rest, findProduct products it.product_id = none := by
        rcases h with ⟨it, hit, hnone⟩
        rcases List.mem_cons.mp hit with heq | hmem
        · rw [heq] at hnone
          rw [hf] at hnone
          exact absurd hnone (by simp)
        · exact ⟨it, hmem, hnone⟩
      rcases ih h' with ⟨pid, hpid, heq⟩
      exact ⟨pid, hpid, by simp [lineItemsOf, hf, heq]⟩

/-- C4: an authenticated checkout whose (non-empty) cart references a product
id that the batch catalog lookup does not resolve fails with the
unknown-product error: the response is the 500 `Product <id> not found`
failure and zero order rows and zero order-item rows are persisted. -/
theorem C4_unknown_product (user : AuthUser) (body : CheckoutBody)
    (catalog : List Product) (flags : DbFlags) (oid sid url : String)
    (hship : shippingAddressSchemaParse body.shipping_address
      = Except.ok body.shipping_address)
    (hsel : flags.productsSelectFails = false)
    (hunk : ∃ item ∈ body.cart_items,
      findProduct (batchSelectProducts catalog
          (body.cart_items.map (fun i => i.product_id))) item.product_id
        = none) :
    ∃ pid,
      findProduct (batchSelectProducts catalog
          (body.cart_items.map (fun i => i.product_id))) pid = none
      ∧ checkoutPOST (some user) body catalog flags oid sid url
          = ⟨CheckoutResponse.err 500 ("Product " ++ pid ++ " not found"),
              [], []⟩ := by
  rcases lineItemsOf_error_of_unresolved _ _ hunk with ⟨pid, hpid, heq⟩
  have hne : body.cart_items ≠ [] := by
    rintro hnil
    rcases hunk with ⟨item, hit, _⟩
    rw [hnil] at hit
    exact absurd hit (List.not_mem_nil item)
  refine ⟨pid, hpid, ?_⟩
  simp [checkoutPOST, hship, hsel, heq, hne]

/-- C4 (witness): the theorem applied to a concrete cart referencing the
unknown product id `pX` against a catalog holding only `p1`. -/
theorem C4_unknown_product_witness :
    (shippingAddressSchemaParse sampleAddress = Except.ok sampleAddress)
    ∧ (flagsOkAll.productsSelectFails = false)
    ∧ (∃ item ∈ [(⟨"pX", 1, 0⟩ : CartItemInput)],
        findProduct (batchSelectProducts [sampleProduct]
            (([(⟨"pX", 1, 0⟩ : CartItemInput)]).map (fun i => i.product_id)))
          item.product_id = none)
    ∧ ∃ pid,
        findProduct (batchSelectProducts [sampleProduct]
            (([(⟨"pX", 1, 0⟩ : CartItemInput)]).map (fun i => i.product_id)))
          pid = none
        ∧ checkoutPOST (some sampleUser) ⟨sampleAddress, [⟨"pX", 1, 0⟩]⟩
            [sampleProduct] flagsOkAll "o1" "cs1" "http://pay"
            = ⟨CheckoutResponse.err 500 ("Product " ++ pid ++ " not found"),
                [], []⟩ := by
  refine ⟨rfl, rfl, by decide, ?_⟩
  have h := C4_unknown_product sampleUser ⟨sampleAddress, [⟨"pX", 1, 0⟩]⟩
    [sampleProduct] flagsOkAll "o1" "cs1" "http://pay" rfl rfl (by decide)
  exact h

/-! ## C5: total amount equals the sum over order items -/

/-- The reduce-computed total agrees with the order-item rows: when the
order-items mapping succeeds, the total fold returns the accumulator plus the
sum of `product_price × quantity` over the produced rows. -/
theorem totalAmountFrom_of_orderItems (products : List Product) (oid : String) :
    ∀ (cart : List CartItemInput) (s : Int) (rs : List OrderItemRow),
      orderItemsOf products oid cart = Except.ok rs →
      totalAmountFrom products s cart = Except.ok (s + orderItemsTotal rs) := by
  intro cart
  induction cart with
  | nil =>
    intro s rs h
    simp [orderItemsOf] at h
    subst h
    simp [totalAmountFrom, orderItemsTotal]
  | cons item rest ih =>
    intro s rs h
    cases hf : findProduct products item.product_id with
    | none => simp [orderItemsOf, hf] at h
    | some p =>
      cases hr : orderItemsOf products oid rest with
      | error e => simp [orderItemsOf, hf, hr] at h
      | ok rs' =>
        simp [orderItemsOf, hf, hr] at h
        simp only [totalAmountFrom, hf]
        rw [ih (s + p.price * item.quantity) rs' hr, ← h]
        simp only [orderItemsTotal, List.map_cons, List.sum_cons,
          Except.ok.injEq]
        ring

/-- Every produced order-item row carries the name and price of the product
its id resolves to. -/
theorem orderItemsOf_resolved (products : List Product) (oid : String) :
    ∀ (cart : List CartItemInput) (rs : List OrderItemRow),
      orderItemsOf products oid cart = Except.ok rs →
      ∀ it ∈ rs, ∃ p, findProduct products it.product_id = some p
        ∧ it.product_price = p.price ∧ it.product_name = p.name := by
  intro cart
  induction cart with
  | nil =>
    intro rs h
    simp [orderItemsOf] at h
    subst h
    simp
  | cons item rest ih =>
    intro rs h
    cases hf : findProduct products item.product_id with
    | none => simp [orderItemsOf, hf] at h
    | some p =>
      cases hr : orderItemsOf products oid rest with
      | error e => simp [orderItemsOf, hf, hr] at h
      | ok rs' =>
        simp [orderItemsOf, hf, hr] at h
        intro it hit
        rw [← h] at hit
        rcases List.mem_cons.mp hit with heq | hmem
        · exact ⟨p, by simp [heq, hf]⟩
        · exact ih rs' hr it hmem

/-- The product ids of a cart do not depend on the client price field. -/
theorem setClientPrice_ids (f : CartItemInput → Int)
    (cart : List CartItemInput) :
    (setClientPrice f cart).map (fun i => i.product_id)
      = cart.map (fun i => i.product_id) := by
  simp only [setClientPrice, List.map_map]
  rfl

/-- The Stripe line items do not depend on the client price field. -/
theorem lineItemsOf_setClientPrice (products : List Product)
    (f : CartItemInput → Int) :
    ∀ cart : List CartItemInput,
      lineItemsOf products (setClientPrice f cart) = lineItemsOf products cart := by
  intro cart
  induction cart with
  | nil => rfl
  | cons item rest ih =>
    cases hf : findProduct products item.product_id with
    | none => simp [setClientPrice, lineItemsOf, hf] at ih ⊢
    | some p => simp [setClientPrice, lineItemsOf, hf, ih] at ih ⊢

/-- The computed total does not depend on the client price field. -/
theorem totalAmountFrom_setClientPrice (products : List Product)
    (f : CartItemInput → Int) :
    ∀ (cart : List CartItemInput) (s : Int),
      totalAmountFrom products s (setClientPrice f cart)
        = totalAmountFrom products s cart := by
  intro cart
  induction cart with
  | nil => intro s; rfl
  | cons item rest ih =>
    intro s
    simp only [setClientPrice] at ih ⊢
    simp only [List.map_cons]
    cases hf : findProduct products item.product_id with
    | none => simp [totalAmountFrom, hf]
    | some p => simp [totalAmountFrom, hf, ih]

/-- The order-item rows do not depend on the client price field. -/
theorem orderItemsOf_setClientPrice (products : List Product) (oid : String)
    (f : CartItemInput → Int) :
    ∀ cart : List CartItemInput,
      orderItemsOf products oid (setClientPrice f cart)
        = orderItemsOf products oid cart := by
  intro cart
  induction cart with
  | nil => rfl
  | cons item rest ih =>
    simp only [setClientPrice] at ih ⊢
    simp only [List.map_cons]
    cases hf : findProduct products item.product_id with
    | none => simp [orderItemsOf, hf]
    | some p => simp [orderItemsOf, hf, ih]

/-- Emptiness of the cart does not depend on the client price field. -/
theorem isEmpty_setClientPrice (f : CartItemInput → Int)
    (cart : List CartItemInput) :
    (setClientPrice f cart).isEmpty = cart.isEmpty := by
  cases cart <;> rfl

/-- The whole checkout outcome is unchanged when every client-supplied price
field is replaced arbitrarily. -/
theorem checkoutPOST_setClientPrice (user? : Option AuthUser)
    (body : CheckoutBody) (catalog : List Product) (flags : DbFlags)
    (oid sid url : String) (f : CartItemInput → Int) :
    checkoutPOST user? { body with cart_items := setClientPrice f body.cart_items }
        catalog flags oid sid url
      = checkoutPOST user? body catalog flags oid sid url := by
  cases user? with
  | none => rfl
  | some user =>
    simp only [checkoutPOST, isEmpty_setClientPrice, setClientPrice_ids,
      lineItemsOf_setClientPrice, totalAmountOf, totalAmountFrom_setClientPrice,
      orderItemsOf_setClientPrice]

/-- C5: for every successful checkout the persisted order's `total_amount`
equals the sum of `product_price × quantity` over the persisted order-item
rows; every order-item price is the price of the product its id resolves to in
the server-side batch lookup; and the whole outcome is independent of any
client-supplied price field. -/
theorem C5_total_amount (user : AuthUser) (body : CheckoutBody)
    (catalog : List Product) (flags : DbFlags) (oid sid url : String)
    (hok : (checkoutPOST (some user) body catalog flags oid sid url).response
      = CheckoutResponse.ok sid url) :
    (∀ o ∈ (checkoutPOST (some user) body catalog flags oid sid url).orders,
        o.total_amount = orderItemsTotal
          (checkoutPOST (some user) body catalog flags oid sid url).order_items)
    ∧ (∀ it ∈ (checkoutPOST (some user) body catalog flags oid sid url).order_items,
        ∃ p, findProduct (batchSelectProducts catalog
            (body.cart_items.map (fun i => i.product_id))) it.product_id = some p
          ∧ it.product_price = p.price)
    ∧ (∀ f, checkoutPOST (some user)
          { body with cart_items := setClientPrice f body.cart_items }
          catalog flags oid sid url
        = checkoutPOST (some user) body catalog flags oid sid url) := by
  have key : ∃ addr t rs,
      totalAmountFrom (batchSelectProducts catalog
          (body.cart_items.map (fun i => i.product_id))) 0 body.cart_items
        = Except.ok t
      ∧ orderItemsOf (batchSelectProducts catalog
          (body.cart_items.map (fun i => i.product_id))) oid body.cart_items
        = Except.ok rs
      ∧ checkoutPOST (some user) body catalog flags oid sid url
          = ⟨CheckoutResponse.ok sid url,
              [⟨oid, user.id, user.email, t, "pending", addr, some sid, none⟩],
              rs⟩ := by
    cases hparse : shippingAddressSchemaParse body.shipping_address with
    | error e => simp [checkoutPOST, hparse] at hok
    | ok addr =>
      cases hemp : body.cart_items.isEmpty with
      | true => simp [checkoutPOST, hparse, hemp] at hok
      | false =>
        cases hpsf : flags.productsSelectFails with
        | true => simp [checkoutPOST, hparse, hemp, hpsf] at hok
        | false =>
          cases hli : lineItemsOf (batchSelectProducts catalog
              (body.cart_items.map (fun i => i.product_id))) body.cart_items with
          | error e => simp [checkoutPOST, hparse, hemp, hpsf, hli] at hok
          | ok lis =>
            cases hta : totalAmountFrom (batchSelectProducts catalog
                (body.cart_items.map (fun i => i.product_id))) 0 body.cart_items with
            | error e =>
              simp [checkoutPOST, totalAmountOf, hparse, hemp, hpsf, hli, hta]
                at hok
            | ok t =>
              cases hoins : flags.orderInsertFails with
              | true =>
                simp [checkoutPOST, totalAmountOf, hparse, hemp, hpsf, hli,
                  hta, hoins] at hok
              | false =>
                cases hoi : orderItemsOf (batchSelectProducts catalog
                    (body.cart_items.map (fun i => i.product_id))) oid
                    body.cart_items with
                | error e =>
                  simp [checkoutPOST, totalAmountOf, hparse, hemp, hpsf, hli,
                    hta, hoins, hoi] at hok
                | ok rs =>
                  cases hoiins : flags.orderItemsInsertFails with
                  | true =>
                    simp [checkoutPOST, totalAmountOf, hparse, hemp, hpsf,
                      hli, hta, hoins, hoi, hoiins] at hok
                  | false =>
                    cases hssf : flags.stripeSessionFails with
                    | true =>
                      simp [checkoutPOST, totalAmountOf, hparse, hemp, hpsf,
                        hli, hta, hoins, hoi, hoiins, hssf] at hok
                    | false =>
                      exact ⟨addr, t, rs, rfl, rfl, by
                        simp [checkoutPOST, totalAmountOf, hparse, hemp, hpsf,
                          hli, hta, hoins, hoi, hoiins, hssf]⟩
  rcases key with ⟨addr, t, rs, hta, hoi, hres⟩
  have htot := totalAmountFrom_of_orderItems _ oid body.cart_items 0 rs hoi
  rw [hta] at htot
  have ht : t = orderItemsTotal rs := by simpa using htot
  refine ⟨?_, ?_, fun f => checkoutPOST_setClientPrice _ _ _ _ _ _ _ f⟩
  · rw [hres]
    intro o ho
    simp only [List.mem_singleton] at ho
    simp [ho, ht]
  · rw [hres]
    intro it hit
    rcases orderItemsOf_resolved _ oid body.cart_items rs hoi it hit with
      ⟨p, hfind, hprice, _⟩
    exact ⟨p, hfind, hprice⟩

/-- C5 (witness): the theorem applied to a concrete successful two-line-item
checkout (2 × 1000 + 1 × 2500 = 4500 minor units), with client-supplied price
fields 5 and 7 that do not influence the result. -/
theorem C5_total_amount_witness :
    ((checkoutPOST (some sampleUser)
        ⟨sampleAddress, [⟨"p1", 2, 5⟩, ⟨"p2", 1, 7⟩]⟩
        [sampleProduct, sampleProduct2] flagsOkAll "o1" "cs1" "http://pay").response
      = CheckoutResponse.ok "cs1" "http://pay")
    ∧ ∀ o ∈ (checkoutPOST (some sampleUser)
        ⟨sampleAddress, [⟨"p1", 2, 5⟩, ⟨"p2", 1, 7⟩]⟩
        [sampleProduct, sampleProduct2] flagsOkAll "o1" "cs1" "http://pay").orders,
      o.total_amount = orderItemsTotal (checkoutPOST (some sampleUser)
        ⟨sampleAddress, [⟨"p1", 2, 5⟩, ⟨"p2", 1, 7⟩]⟩
        [sampleProduct, sampleProduct2] flagsOkAll "o1" "cs1" "http://pay").order_items :=
  ⟨rfl, (C5_total_amount sampleUser
    ⟨sampleAddress, [⟨"p1", 2, 5⟩, ⟨"p2", 1, 7⟩]⟩
    [sampleProduct, sampleProduct2] flagsOkAll "o1" "cs1" "http://pay" rfl).1⟩

/-! ## C6: signature failures are rejected before any store access -/

/-- C6: a webhook request with a missing signature header, or whose signature
verification throws, is rejected with a 400 failure response; the operation
trace is empty (no store read or write, hence no order lookup, no order
update, no cart deletion) and the store is untouched. -/
theorem C6_invalid_signature_rejected
    (ce : String → String → String → Except String StripeEvent)
    (secret body : String) (signature : Option String) (st : StoreState)
    (h : signature = none
      ∨ ∃ s msg, signature = some s ∧ ce body s secret = Except.error msg) :
    (webhookPOST ce secret body signature st).ops = []
    ∧ (webhookPOST ce secret body signature st).store = st
    ∧ ∃ m, (webhookPOST ce secret body signature st).response
        = WebhookResponse.err 400 m := by
  rcases h with h | ⟨s, msg, hs, hce⟩
  · subst h
    exact ⟨rfl, rfl, "No signature", rfl⟩
  · subst hs
    simp [webhookPOST, hce]

/-- C6 (witness): the theorem applied to a request with no signature header. -/
theorem C6_invalid_signature_rejected_witness :
    ((none : Option String) = none
      ∨ ∃ s msg, (none : Option String) = some s
          ∧ sampleConstructEvent "rawbody" s "whsec" = Except.error msg)
    ∧ ((webhookPOST sampleConstructEvent "whsec" "rawbody" none
          sampleStoreCompleted).ops = []
      ∧ (webhookPOST sampleConstructEvent "whsec" "rawbody" none
          sampleStoreCompleted).store = sampleStoreCompleted
      ∧ ∃ m, (webhookPOST sampleConstructEvent "whsec" "rawbody" none
          sampleStoreCompleted).response = WebhookResponse.err 400 m) :=
  ⟨Or.inl rfl,
    C6_invalid_signature_rejected sampleConstructEvent "whsec" "rawbody" none
      sampleStoreCompleted (Or.inl rfl)⟩

/-! ## C7: unrecognized event types are acknowledged and ignored -/

/-- C7: a validly signed event whose type is neither
`checkout.session.completed` nor `payment_intent.payment_failed` is accepted
and ignored: the handler performs no store operation, leaves the store
unchanged and returns the success acknowledgment. -/
theorem C7_unknown_event_ignored
    (ce : String → String → String → Except String StripeEvent)
    (secret body s : String) (st : StoreState) (ev : StripeEvent)
    (hok : ce body s secret = Except.ok ev)
    (h1 : ev.type ≠ "checkout.session.completed")
    (h2 : ev.type ≠ "payment_intent.payment_failed") :
    webhookPOST ce secret body (some s) st
      = ⟨WebhookResponse.received, st, []⟩ := by
  simp [webhookPOST, hok, h1, h2]

/-- C7 (witness): the theorem applied to a concrete `product.created` event. -/
theorem C7_unknown_event_ignored_witness :
    ((fun _ _ _ => Except.ok (⟨"product.created", ⟨none, none, "", ""⟩⟩ : StripeEvent)
        : String → String → String → Except String StripeEvent) "rawbody" "sig" "whsec"
      = Except.ok (⟨"product.created", ⟨none, none, "", ""⟩⟩ : StripeEvent))
    ∧ ("product.created" ≠ "checkout.session.completed")
    ∧ ("product.created" ≠ "payment_intent.payment_failed")
    ∧ webhookPOST
        (fun _ _ _ => Except.ok (⟨"product.created", ⟨none, none, "", ""⟩⟩ : StripeEvent))
        "whsec" "rawbody" (some "sig") sampleStoreCompleted
      = ⟨WebhookResponse.received, sampleStoreCompleted, []⟩ :=
  ⟨rfl, by decide, by decide,
    C7_unknown_event_ignored
      (fun _ _ _ => Except.ok (⟨"product.created", ⟨none, none, "", ""⟩⟩ : StripeEvent))
      "whsec" "rawbody" "sig" sampleStoreCompleted
      ⟨"product.created", ⟨none, none, "", ""⟩⟩ rfl (by decide) (by decide)⟩

/-! ## C8: the non-null product assertions never dereference undefined -/

/-- C8: when every cart item's product id resolves among the batch-selected
products, both the total fold and the order-items mapping succeed (the
`product!` dereferences never hit `undefined`); moreover, success of the
earlier Stripe line-item mapping — which throws at the first unresolved
product — already establishes that precondition, so on the code path where
the total and the order items are evaluated the undefined branch is
unreachable. -/
theorem C8_nonnull_assertions_safe (products : List Product)
    (cart : List CartItemInput) (oid : String) (s : Int)
    (h : ∀ item ∈ cart, (findProduct products item.product_id).isSome = true) :
    ((∃ t, totalAmountFrom products s cart = Except.ok t)
      ∧ (∃ rs, orderItemsOf products oid cart = Except.ok rs))
    ∧ ∀ li, lineItemsOf products cart = Except.ok li →
        ∀ item ∈ cart, (findProduct products item.product_id).isSome = true := by
  have htot : ∀ (c : List CartItemInput),
      (∀ item ∈ c, (findProduct products item.product_id).isSome = true) →
      ∀ a : Int, ∃ t, totalAmountFrom products a c = Except.ok t := by
    intro c
    induction c with
    | nil => intro _ a; exact ⟨a, rfl⟩
    | cons item rest ih =>
      intro hh a
      cases hf : findProduct products item.product_id with
      | none =>
        have := hh item (List.mem_cons_self item rest)
        rw [hf] at this
        simp at this
      | some p =>
        simpa [totalAmountFrom, hf] using
          ih (fun it hit => hh it (List.mem_cons_of_mem item hit))
            (a + p.price * item.quantity)
  have hitems : ∀ (c : List CartItemInput),
      (∀ item ∈ c, (findProduct products item.product_id).isSome = true) →
      ∃ rs, orderItemsOf products oid c = Except.ok rs := by
    intro c
    induction c with
    | nil => exact fun _ => ⟨[], rfl⟩
    | cons item rest ih =>
      intro hh
      cases hf : findProduct products item.product_id with
      | none =>
        have := hh item (List.mem_cons_self item rest)
        rw [hf] at this
        simp at this
      | some p =>
        rcases ih (fun it hit => hh it (List.mem_cons_of_mem item hit)) with
          ⟨rs, hrs⟩
        refine ⟨⟨oid, item.product_id, p.name, p.price, item.quantity⟩ :: rs, ?_⟩
        simp [orderItemsOf, hf, hrs]
  have hline : ∀ (c : List CartItemInput) (li : List LineItem),
      lineItemsOf products c = Except.ok li →
      ∀ item ∈ c, (findProduct products item.product_id).isSome = true := by
    intro c
    induction c with
    | nil => intro li _ item hit; exact absurd hit (List.not_mem_nil item)
    | cons item rest ih =>
      intro li hli it hit
      cases hf : findProduct products item.product_id with
      | none => simp [lineItemsOf, hf] at hli
      | some p =>
        cases hrest : lineItemsOf products rest with
        | error e => simp [lineItemsOf, hf, hrest] at hli
        | ok ls =>
          rcases List.mem_cons.mp hit with heq | hmem
          · rw [heq, hf]
            rfl
          · exact ih ls hrest it hmem
  exact ⟨⟨htot cart h s, hitems cart h⟩, fun li hli => hline cart li hli⟩

/-- C8 (witness): the theorem applied to a concrete fully-resolving cart. -/
theorem C8_nonnull_assertions_safe_witness :
    (∀ item ∈ [(⟨"p1", 1, 0⟩ : CartItemInput)],
      (findProduct [sampleProduct] item.product_id).isSome = true)
    ∧ (((∃ t, totalAmountFrom [sampleProduct] 0 [(⟨"p1", 1, 0⟩ : CartItemInput)]
          = Except.ok t)
      ∧ (∃ rs, orderItemsOf [sampleProduct] "o1" [(⟨"p1", 1, 0⟩ : CartItemInput)]
          = Except.ok rs))
      ∧ ∀ li, lineItemsOf [sampleProduct] [(⟨"p1", 1, 0⟩ : CartItemInput)]
            = Except.ok li →
          ∀ item ∈ [(⟨"p1", 1, 0⟩ : CartItemInput)],
            (findProduct [sampleProduct] item.product_id).isSome = true) :=
  ⟨by decide,
    C8_nonnull_assertions_safe [sampleProduct] [⟨"p1", 1, 0⟩] "o1" 0 (by decide)⟩

/-! ## C9: metadata guards in the completed-session branch -/

/-- C9: for a validly signed `checkout.session.completed` event, when the
session metadata carries no order id the handler performs no store operation
at all (even if a user id is present) and still acknowledges; when an order id
is present but no user id, the order update to `completed` is performed while
the cart clear is skipped. -/
theorem C9_metadata_guards
    (ce : String → String → String → Except String StripeEvent)
    (secret body s : String) (st : StoreState) (ev : StripeEvent)
    (hok : ce body s secret = Except.ok ev)
    (htype : ev.type = "checkout.session.completed") :
    (ev.object.metadata_order_id = none →
      webhookPOST ce secret body (some s) st
        = ⟨WebhookResponse.received, st, []⟩)
    ∧ (∀ oid, ev.object.metadata_order_id = some oid →
        ev.object.metadata_user_id = none →
        webhookPOST ce secret body (some s) st
          = ⟨WebhookResponse.received,
              ⟨markOrderCompleted st.orders oid ev.object.payment_intent,
                st.cart_items⟩,
              [StoreOp.updateOrderCompleted oid ev.object.payment_intent]⟩) := by
  constructor
  · intro hoid
    simp [webhookPOST, hok, htype, hoid]
  · intro oid hoid huid
    simp [webhookPOST, hok, htype, hoid, huid]

/-- C9 (witness): the theorem applied to the concrete order-id-but-no-user-id
event `sampleEventNoUser`. -/
theorem C9_metadata_guards_witness :
    (sampleConstructEventNoUser "rawbody" "sig" "whsec"
      = Except.ok sampleEventNoUser)
    ∧ (sampleEventNoUser.type = "checkout.session.completed")
    ∧ (sampleEventNoUser.object.metadata_order_id = some "o1")
    ∧ (sampleEventNoUser.object.metadata_user_id = none)
    ∧ webhookPOST sampleConstructEventNoUser "whsec" "rawbody" (some "sig")
        sampleStoreCompleted
      = ⟨WebhookResponse.received,
          ⟨markOrderCompleted sampleStoreCompleted.orders "o1" "pi9",
            sampleStoreCompleted.cart_items⟩,
          [StoreOp.updateOrderCompleted "o1" "pi9"]⟩ :=
  ⟨rfl, rfl, rfl, rfl,
    (C9_metadata_guards sampleConstructEventNoUser "whsec" "rawbody" "sig"
      sampleStoreCompleted sampleEventNoUser rfl rfl).2 "o1" rfl rfl⟩

/-! ## C10: address validation precedes the empty-cart check -/

/-- If the schema accepts an address it returns it unchanged. -/
theorem shippingAddressSchemaParse_ok_eq (a b : ShippingAddress)
    (h : shippingAddressSchemaParse a = Except.ok b) : b = a := by
  unfold shippingAddressSchemaParse at h
  split at h
  · cases h
    rfl
  · cases h

/-- C10: in the checkout route the shipping-address schema parse runs before
the empty-cart check: a request whose address fails validation gets the
internal-failure 500 response (with no rows written) even when the cart is
also empty; the 400 empty-cart error can only arise when the address
validated; and an empty cart with a valid address gets the 400 empty-cart
response with no rows written. -/
theorem C10_address_validation_before_empty_cart
    (user : AuthUser) (body : CheckoutBody) (catalog : List Product)
    (flags : DbFlags) (oid sid url : String) :
    ((shippingAddressSchemaParse body.shipping_address
        = Except.error "Invalid shipping address") →
      checkoutPOST (some user) body catalog flags oid sid url
        = ⟨CheckoutResponse.err 500 "Invalid shipping address", [], []⟩)
    ∧ ((checkoutPOST (some user) body catalog flags oid sid url).response
        = CheckoutResponse.err 400 "Cart is empty" →
      shippingAddressSchemaParse body.shipping_address
        = Except.ok body.shipping_address)
    ∧ ((shippingAddressSchemaParse body.shipping_address
        = Except.ok body.shipping_address) →
      body.cart_items = [] →
      checkoutPOST (some user) body catalog flags oid sid url
        = ⟨CheckoutResponse.err 400 "Cart is empty", [], []⟩) := by
  refine ⟨?_, ?_, ?_⟩
  · intro hbad
    simp [checkoutPOST, hbad]
  · intro hres
    cases hp : shippingAddressSchemaParse body.shipping_address with
    | error e =>
      rw [checkoutPOST] at hres
      simp [hp] at hres
    | ok a =>
      have := shippingAddressSchemaParse_ok_eq body.shipping_address a hp
      rw [← this]
  · intro hgood hcart
    simp [checkoutPOST, hgood, hcart]

/-- C10 (witness): the theorem's first part applied to a concrete request with
an invalid (empty full name) address and an empty cart. -/
theorem C10_address_validation_before_empty_cart_witness :
    (shippingAddressSchemaParse
        (⟨"", "1 Main St", none, "Springfield", "IL", "62704", "US", none⟩ :
          ShippingAddress)
      = Except.error "Invalid shipping address")
    ∧ checkoutPOST (some sampleUser)
        ⟨⟨"", "1 Main St", none, "Springfield", "IL", "62704", "US", none⟩, []⟩
        [sampleProduct] flagsOkAll "o1" "cs1" "http://pay"
      = ⟨CheckoutResponse.err 500 "Invalid shipping address", [], []⟩ :=
  ⟨rfl,
    (C10_address_validation_before_empty_cart sampleUser
      ⟨⟨"", "1 Main St", none, "Springfield", "IL", "62704", "US", none⟩, []⟩
      [sampleProduct] flagsOkAll "o1" "cs1" "http://pay").1 rfl⟩
